import Mathlib

/-!
Shallow embedding of the `foco-total` productivity dashboard
(`src/App.tsx`, `src/types.ts`) and proofs about its filtering,
aggregation, persistence and diagram-editing logic.

Modelling conventions:
* ISO date strings (`date`, `scheduledDate`, the filter date) are modelled
  at day granularity as integers (a day number).  The app always stores
  item dates as `<day>T12:00:00` and parses the filter date at midnight of
  its day, so `isSameDay` becomes equality of day numbers and `isBefore`
  becomes `<` on day numbers.
* JavaScript floating-point arithmetic in the completion-rate computation
  is modelled exactly over the rationals; `Number.prototype.toFixed(0)`
  rounds to the nearest integer with ties away from zero (here: upward,
  values are nonnegative).
* `crypto.randomUUID()` results are passed in as explicit `String`
  parameters; their global uniqueness is a hypothesis where a claim
  needs it.
* Optional TypeScript booleans read through `!!` (`isDaily`) are modelled
  directly as `Bool`.
-/

namespace FocoTotal

/-- `Priority` enum from `src/types.ts`. -/
inductive Priority where
  | low
  | medium
  | high
deriving DecidableEq, Repr

/-- `Category` union type from `src/types.ts`:
`'Trabalho' | 'Pessoal' | 'Saúde' | 'Estudos' | 'Outros'`. -/
inductive Category where
  | trabalho
  | pessoal
  | saude
  | estudos
  | outros
deriving DecidableEq, Repr

/-- `Goal` from `src/types.ts`.  `date` is the day number of the parsed ISO
date; the optional `isDaily` flag is collapsed through `!!` to `Bool`. -/
structure Goal where
  id : String
  title : String
  description : Option String
  completed : Bool
  date : Int
  priority : Priority
  category : Category
  isDaily : Bool
deriving DecidableEq, Repr

/-- `Task` from `src/types.ts`.  `scheduledDate` is the day number of the
parsed ISO date; `category` is optional. -/
structure Task where
  id : String
  title : String
  completed : Bool
  scheduledDate : Int
  createdAt : String
  category : Option Category
  isDaily : Bool
deriving DecidableEq, Repr

/-- `Project['type']` from `src/types.ts`. -/
inductive ProjectType where
  | funil
  | estrutura
deriving DecidableEq, Repr

/-- `Project['company']`: one of the two fixed companies. -/
inductive Company where
  | emporioPascoto
  | pascoto100k
deriving DecidableEq, Repr

/-- `Project` from `src/types.ts`. -/
structure Project where
  id : String
  title : String
  type : ProjectType
  createdAt : String
  company : Company
deriving DecidableEq, Repr

/-- `StrategyBlockType` from `src/types.ts`. -/
inductive StrategyBlockType where
  | vendas
  | financeiro
  | operacional
  | estrategico
  | funil
  | ads
  | lp
  | email
  | checkout
  | nota
deriving DecidableEq, Repr

/-- An `{x, y}` position (JavaScript numbers, modelled as integers). -/
structure Position where
  x : Int
  y : Int
deriving DecidableEq, Repr

/-- `StrategyBlock` from `src/types.ts`. -/
structure StrategyBlock where
  id : String
  title : String
  description : String
  type : StrategyBlockType
  order : Int
  projectId : String
  position : Option Position
deriving DecidableEq, Repr

/-- `StrategyEdge` from `src/types.ts`. -/
structure StrategyEdge where
  id : String
  source : String
  target : String
  projectId : String
deriving DecidableEq, Repr

/-- The six-collection data bundle held in component state and persisted
per user (`src/App.tsx`). -/
structure Bundle where
  goals : List Goal
  tasks : List Task
  notes : List String
  projects : List Project
  blocks : List StrategyBlock
  edges : List StrategyEdge
deriving DecidableEq, Repr

/-- `getEmptyData` (`src/App.tsx` lines 29-36): the empty default bundle. -/
def getEmptyData : Bundle :=
  { goals := [], tasks := [], notes := [], projects := [], blocks := [], edges := [] }

/-- One field of a raw Firestore document as seen by `loadUserData`:
either absent, present but not an array, or an array of values. -/
inductive RawField (α : Type) where
  | missing
  | malformed
  | arr (xs : List α)
deriving DecidableEq, Repr

/-- A raw per-user document (`snap.data()` in `loadUserData`): each of the
six expected fields may be missing, malformed or an array. -/
structure RawDoc where
  goals : RawField Goal
  tasks : RawField Task
  notes : RawField String
  projects : RawField Project
  blocks : RawField StrategyBlock
  edges : RawField StrategyEdge
deriving DecidableEq, Repr

/-- The `Array.isArray(f) ? f : []` coercion applied to each field in
`loadUserData`. -/
def coerceField {α : Type} : RawField α → List α
  | .arr xs => xs
  | _ => []

/-- `loadUserData` (`src/App.tsx` lines 38-51).  The Firestore snapshot is
modelled as `Option RawDoc`: `none` when `!snap.exists()`, otherwise the
raw document.  The function is total: it never throws. -/
def loadUserData (snap : Option RawDoc) : Bundle :=
  match snap with
  | none => getEmptyData
  | some d =>
    { goals := coerceField d.goals
      tasks := coerceField d.tasks
      notes := coerceField d.notes
      projects := coerceField d.projects
      blocks := coerceField d.blocks
      edges := coerceField d.edges }

/-- Session state tracked by `AppContent` around loading and saving
(`src/App.tsx` lines 114-123): the entity-store bundle plus the
`isLoading`, `canSave` and `hasLoadedRef` flags. -/
structure SessionState where
  bundle : Bundle
  isLoading : Bool
  canSave : Bool
  hasLoaded : Bool
deriving DecidableEq, Repr

/-- Outcome of the initial load: the promise from `loadUserData` either
resolves with a bundle or rejects. -/
inductive LoadOutcome where
  | success (b : Bundle)
  | failure
deriving DecidableEq, Repr

/-- Start of the load effect (`src/App.tsx` lines 131-134):
`setIsLoading(true); hasLoadedRef.current = false`. -/
def startLoad (s : SessionState) : SessionState :=
  { s with isLoading := true, hasLoaded := false }

/-- Settling of the load effect (`src/App.tsx` lines 136-162): the `then`
branch stores the loaded bundle and enables saving; the `catch` branch
resets every collection to empty and sets `canSave` to `false`. -/
def settleLoad (s : SessionState) : LoadOutcome → SessionState
  | .success b => { s with bundle := b, canSave := true, hasLoaded := true, isLoading := false }
  | .failure =>
    { s with bundle := getEmptyData, canSave := false, hasLoaded := true, isLoading := false }

/-- The guard of the debounced save effect (`src/App.tsx` line 170):
`if (!hasLoadedRef.current || isLoading || !canSave) return;` — a save is
scheduled exactly when this is `true`. -/
def saveAllowed (s : SessionState) : Bool :=
  s.hasLoaded && !s.isLoading && s.canSave

/-- The category filter control (`filterCategory`): the string `'TUDO'` or
one of the five category names. -/
inductive CategoryFilter where
  | tudo
  | only (c : Category)
deriving DecidableEq, Repr

/-- The status filter control (`filterStatus`):
`'TODOS' | 'PENDENTES' | 'CONCLUIDOS'`. -/
inductive StatusFilter where
  | todos
  | pendentes
  | concluidos
deriving DecidableEq, Repr

/-- `applyFilters` (`src/App.tsx` lines 184-200).  The TypeScript function
ranges over `any[]` and reads `item[dateKey]`, `item.category`,
`item.completed`, `item.isDaily`; those accesses are passed in as
projections.  `filterDate`, `filterCategory`, `filterStatus` are the
component's filter state. -/
def applyFilters {α : Type} (dateOf : α → Int) (categoryOf : α → Option Category)
    (completedOf : α → Bool) (isDailyOf : α → Bool)
    (filterDate : Int) (filterCategory : CategoryFilter) (filterStatus : StatusFilter)
    (items : List α) (includeOverdue : Bool) : List α :=
  items.filter fun item =>
    let itemCategory := (categoryOf item).getD Category.outros
    let matchesDate := dateOf item == filterDate
    let matchesDaily := isDailyOf item
    let matchesOverdue := includeOverdue && !completedOf item && decide (dateOf item < filterDate)
    let matchesCategory :=
      match filterCategory with
      | .tudo => true
      | .only c => itemCategory == c
    let matchesStatus :=
      match filterStatus with
      | .todos => true
      | .concluidos => completedOf item
      | .pendentes => !completedOf item
    (matchesDate || matchesDaily || matchesOverdue) && matchesCategory && matchesStatus

/-- `currentGoals` (`src/App.tsx` line 202): `applyFilters(goals, 'date')`
with overdue inclusion disabled (default argument `false`). -/
def currentGoals (goals : List Goal) (filterDate : Int) (filterCategory : CategoryFilter)
    (filterStatus : StatusFilter) : List Goal :=
  applyFilters Goal.date (fun g => some g.category) Goal.completed Goal.isDaily
    filterDate filterCategory filterStatus goals false

/-- `currentTasks` (`src/App.tsx` line 203):
`applyFilters(tasks, 'scheduledDate', true)`. -/
def currentTasks (tasks : List Task) (filterDate : Int) (filterCategory : CategoryFilter)
    (filterStatus : StatusFilter) : List Task :=
  applyFilters Task.scheduledDate Task.category Task.completed Task.isDaily
    filterDate filterCategory filterStatus tasks true

/-- The snapshot counters record (`src/App.tsx` lines 211-216). -/
structure Stats where
  total : Nat
  completed : Nat
  pending : Nat
  rate : String
deriving DecidableEq, Repr

/-- `stats` (`src/App.tsx` lines 211-216).  `rate` is
`((completed / total) * 100).toFixed(0)` when `total` is truthy and the
string `"0"` otherwise; `toFixed(0)` rounds half upward, which over the
rationals is `⌊(100·completed/total) + 1/2⌋ = (200·completed + total) / (2·total)`
in natural-number division. -/
def stats (goals : List Goal) (tasks : List Task) : Stats :=
  let total := goals.length + tasks.length
  let completed :=
    (goals.filter fun g => g.completed).length + (tasks.filter fun t => t.completed).length
  { total := total
    completed := completed
    pending := total - completed
    rate := if total = 0 then "0" else toString ((200 * completed + total) / (2 * total)) }

/-- One point of the weekly series (`WeeklyStat` in `src/types.ts`).  The
`day` label string (`format(day, 'EEE', ...)`) is a pure function of the
day, modelled by the day number itself. -/
structure WeeklyStat where
  day : Int
  completed : Nat
  total : Nat
deriving DecidableEq, Repr

/-- `weeklyStats` (`src/App.tsx` lines 258-283).  `today` is the day
number of `new Date()`; the seven days are `subDays(today, 6 - index)`
for `index = 0..6`.  The `forEach` accumulation of `total`/`completed`
over both collections is expressed with `countP`. -/
def weeklyStats (goals : List Goal) (tasks : List Task) (today : Int) : List WeeklyStat :=
  let days := (List.range 7).map fun (index : ℕ) => today - ((6 : Int) - (index : Int))
  days.map fun day =>
    let gTotal := goals.countP fun g => g.date == day || g.isDaily
    let gCompleted := goals.countP fun g => (g.date == day || g.isDaily) && g.completed
    let tTotal := tasks.countP fun t => t.scheduledDate == day || t.isDaily
    let tCompleted := tasks.countP fun t => (t.scheduledDate == day || t.isDaily) && t.completed
    { day := day, completed := gCompleted + tCompleted, total := gTotal + tTotal }

/-- The block-delete handler (`src/App.tsx` lines 673-677):
`setBlocks(blocks.filter(b => b.id !== block.id))` and
`setEdges(edges.filter(e => e.source !== block.id && e.target !== block.id))`. -/
def deleteBlock (blocks : List StrategyBlock) (edges : List StrategyEdge) (blockId : String) :
    List StrategyBlock × List StrategyEdge :=
  (blocks.filter fun b => b.id != blockId,
   edges.filter fun e => e.source != blockId && e.target != blockId)

/-- `onDuplicateNode` (`src/App.tsx` lines 637-649): look up the node by
id; if found, prepend a clone with a fresh id (`newId` stands for
`crypto.randomUUID()`), the title suffixed with `" (Cópia)"`, and the
position (when present) offset by `(+30, +30)`.  Edges are untouched. -/
def onDuplicateNode (blocks : List StrategyBlock) (edges : List StrategyEdge)
    (nodeId newId : String) : List StrategyBlock × List StrategyEdge :=
  match blocks.find? fun b => b.id == nodeId with
  | none => (blocks, edges)
  | some target =>
    ({ target with
        id := newId
        title := target.title ++ " (Cópia)"
        position := target.position.map fun p => { x := p.x + 30, y := p.y + 30 } } :: blocks,
     edges)

/-- `addTemplateFunnel` (`src/App.tsx` lines 319-335).  The four block ids
and three edge ids stand for the seven `crypto.randomUUID()` calls; the
template blocks and edges are prepended to the stores. -/
def addTemplateFunnel (projectId : String) (bid1 bid2 bid3 bid4 eid1 eid2 eid3 : String)
    (blocks : List StrategyBlock) (edges : List StrategyEdge) :
    List StrategyBlock × List StrategyEdge :=
  let templateBlocks : List StrategyBlock :=
    [ { id := bid1, title := "Atrair", description := "Anúncios + Conteúdo", type := .ads,
        order := 1, projectId := projectId, position := some { x := 80, y := 80 } },
      { id := bid2, title := "Capturar", description := "Landing Page", type := .lp,
        order := 2, projectId := projectId, position := some { x := 80 + 240, y := 80 } },
      { id := bid3, title := "Nutrir", description := "Sequência de e-mails", type := .email,
        order := 3, projectId := projectId, position := some { x := 80 + 480, y := 80 } },
      { id := bid4, title := "Converter", description := "Checkout + Oferta", type := .checkout,
        order := 4, projectId := projectId, position := some { x := 80 + 720, y := 80 } } ]
  let templateEdges : List StrategyEdge :=
    [ { id := eid1, source := bid1, target := bid2, projectId := projectId },
      { id := eid2, source := bid2, target := bid3, projectId := projectId },
      { id := eid3, source := bid3, target := bid4, projectId := projectId } ]
  (templateBlocks ++ blocks, templateEdges ++ edges)

/-- `ThemeType` from `src/types.ts`. -/
inductive ThemeType where
  | feminine
  | masculine
deriving DecidableEq, Repr

/-- `User` from `src/types.ts`. -/
structure User where
  username : String
  name : String
  theme : ThemeType
deriving DecidableEq, Repr

/-- Result of the login form submission: either a session (`onLogin`) or
an inline error message (`setError`). -/
inductive LoginResult where
  | session (u : User)
  | rejected (msg : String)
deriving DecidableEq, Repr

/-- JavaScript `String.prototype.toLowerCase`, modelled per character
(the allow-listed usernames are ASCII). -/
def toLowerStr (s : String) : String :=
  ⟨s.data.map Char.toLower⟩

/-- JavaScript `String.prototype.trim`: drop leading and trailing
whitespace. -/
def trimStr (s : String) : String :=
  ⟨((s.data.dropWhile Char.isWhitespace).reverse.dropWhile Char.isWhitespace).reverse⟩

/-- The normalisation applied to the typed username
(`src/App.tsx` line 1082): `user.toLowerCase().trim()`. -/
def normalizeUsername (input : String) : String :=
  trimStr (toLowerStr input)

/-- The branch cascade of `Login.handleSubmit` (`src/App.tsx` lines
1083-1095) on the already-normalised username `u`: reject the empty
string, accept `pascoto`/`pascot` as the PASCOTO session and `yasmin` as
the YASMIN session, reject anything else. -/
def submitNormalized (u : String) : LoginResult :=
  if u = "" then .rejected "Informe o acesso"
  else if u = "pascoto" ∨ u = "pascot" then
    .session { username := "pascoto", name := "PASCOTO", theme := .masculine }
  else if u = "yasmin" then
    .session { username := "yasmin", name := "YASMIN", theme := .feminine }
  else .rejected "Acesso inválido"

/-- `Login.handleSubmit` (`src/App.tsx` lines 1080-1096):
`const u = user.toLowerCase().trim()` followed by the branch cascade. -/
def handleSubmit (input : String) : LoginResult :=
  submitNormalized (normalizeUsername input)

/-- The strategy-view access gate (`src/App.tsx` lines 287 and 499-504):
`isPascoto = user.username === 'pascoto'`; on the `/strategy` route a
non-`pascoto` user is shown the restricted-access notice instead of the
strategy workspace. -/
def hasStrategyAccess (u : User) : Bool :=
  u.username == "pascoto"

/-- What the `/strategy` route renders (`src/App.tsx` lines 499-504):
the restricted-access notice for non-`pascoto` users, the strategy
workspace otherwise. -/
inductive StrategyView where
  | restrictedNotice
  | workspace
deriving DecidableEq, Repr

/-- Render decision of the `/strategy` route (`src/App.tsx` line 501). -/
def strategyRoute (u : User) : StrategyView :=
  if hasStrategyAccess u then .workspace else .restrictedNotice

/-- Test goal used in concrete evaluations. -/
def sampleGoal : Goal :=
  { id := "g1", title := "meta", description := none, completed := false,
    date := 100, priority := .medium, category := .trabalho, isDaily := false }

/-- Test task used in concrete evaluations. -/
def sampleTask : Task :=
  { id := "t1", title := "tarefa", completed := false, scheduledDate := 100,
    createdAt := "c", category := none, isDaily := false }

example :
    currentGoals [sampleGoal] 100 .tudo .todos = [sampleGoal] := by decide

example :
    currentGoals [sampleGoal] 101 .tudo .todos = [] := by decide

example :
    currentTasks [sampleTask] 101 .tudo .todos = [sampleTask] := by decide

example :
    (stats [sampleGoal, { sampleGoal with id := "g2", completed := true }]
      [sampleTask, { sampleTask with id := "t2", completed := true }]).rate = "50" := by decide

example : (weeklyStats [] [] 50).length = 7 := by decide

example : handleSubmit " PASCOT " =
    .session { username := "pascoto", name := "PASCOTO", theme := .masculine } := by decide

example : handleSubmit "Yasmin" =
    .session { username := "yasmin", name := "YASMIN", theme := .feminine } := by decide

example : handleSubmit "bob" = .rejected "Acesso inválido" := by decide

example : handleSubmit "   " = .rejected "Informe o acesso" := by decide

/-! ## Claim-side definitions

These restate, in Lean, the predicates the specification uses in its own
words; the theorems below compare them with the definitions translated
from the source. -/

/-- Specification predicate for a goal passing the filter: the date falls
on the selected day or the goal is daily; the category selector is ALL or
equals the goal's category; the status selector is ALL or matches the
completed flag. -/
def goalFilterClaim (filterDate : Int) (fc : CategoryFilter) (fs : StatusFilter)
    (g : Goal) : Prop :=
  (g.date = filterDate ∨ g.isDaily = true) ∧
  (fc = .tudo ∨ fc = .only g.category) ∧
  (fs = .todos ∨ (fs = .concluidos ∧ g.completed = true) ∨
    (fs = .pendentes ∧ g.completed = false))

instance (filterDate : Int) (fc : CategoryFilter) (fs : StatusFilter) (g : Goal) :
    Decidable (goalFilterClaim filterDate fc fs g) := by
  unfold goalFilterClaim; infer_instance

/-- Specification predicate for a task passing the filter: as for goals
(an absent category counts as `Outros`), except that a task additionally
passes the date test when it is not completed and its date is strictly
before the selected day. -/
def taskFilterClaim (filterDate : Int) (fc : CategoryFilter) (fs : StatusFilter)
    (t : Task) : Prop :=
  (t.scheduledDate = filterDate ∨ t.isDaily = true ∨
    (t.completed = false ∧ t.scheduledDate < filterDate)) ∧
  (fc = .tudo ∨ fc = .only (t.category.getD Category.outros)) ∧
  (fs = .todos ∨ (fs = .concluidos ∧ t.completed = true) ∨
    (fs = .pendentes ∧ t.completed = false))

instance (filterDate : Int) (fc : CategoryFilter) (fs : StatusFilter) (t : Task) :
    Decidable (taskFilterClaim filterDate fc fs t) := by
  unfold taskFilterClaim; infer_instance

/-- Specification predicate for an item counting toward a day of the
weekly series: its stored date falls on that day or it is marked daily. -/
def countsTowardDay (itemDate : Int) (isDaily : Bool) (day : Int) : Prop :=
  itemDate = day ∨ isDaily = true

instance (itemDate : Int) (isDaily : Bool) (day : Int) :
    Decidable (countsTowardDay itemDate isDaily day) := by
  unfold countsTowardDay; infer_instance

/-- Specification form of one weekly-series point for a given day: the
total is the number of items counting toward the day, the completed count
additionally requires the completed flag. -/
def weeklyPointClaim (goals : List Goal) (tasks : List Task) (day : Int) : WeeklyStat :=
  { day := day
    total :=
      (goals.filter fun g => decide (countsTowardDay g.date g.isDaily day)).length +
      (tasks.filter fun t => decide (countsTowardDay t.scheduledDate t.isDaily day)).length
    completed :=
      (goals.filter fun g =>
        decide (countsTowardDay g.date g.isDaily day ∧ g.completed = true)).length +
      (tasks.filter fun t =>
        decide (countsTowardDay t.scheduledDate t.isDaily day ∧ t.completed = true)).length }

/-- Specification form of the completion rate: `completed / total · 100`,
rounded to the nearest integer. -/
def ratePercent (completed total : ℕ) : ℤ :=
  round ((completed : ℚ) / total * 100)

/-! ## Shared helper lemmas -/

/-- `coerceField` returns an array unchanged and everything else as the
empty list. -/
theorem coerceField_spec {α : Type} (f : RawField α) :
    (∀ xs, f = .arr xs → coerceField f = xs) ∧
    ((∀ xs, f ≠ .arr xs) → coerceField f = []) := by
  cases f <;> simp [coerceField]

/-- The half-up rounding `(200·c + t) / (2·t)` performed by `stats` (in
natural-number division) equals the nearest-integer rounding of
`c / t · 100` over the rationals. -/
theorem rate_div_eq_round (c t : ℕ) (ht : t ≠ 0) :
    (200 * c + t) / (2 * t) = (ratePercent c t).toNat := by
  have ht' : (t : ℚ) ≠ 0 := Nat.cast_ne_zero.mpr ht
  have h1 : (c : ℚ) / t * 100 + 1 / 2 = ((200 * c + t : ℕ) : ℚ) / ((2 * t : ℕ) : ℚ) := by
    push_cast
    field_simp
    ring
  rw [ratePercent, round_eq, h1, Int.floor_toNat, Nat.floor_div_eq_div]

/-- In a block store with pairwise-distinct ids, looking a member up by
its id finds exactly that member. -/
theorem find?_id_eq_of_nodup (blocks : List StrategyBlock) (b : StrategyBlock)
    (hnodup : (blocks.map StrategyBlock.id).Nodup) (hb : b ∈ blocks) :
    blocks.find? (fun x => x.id == b.id) = some b := by
  induction blocks with
  | nil => cases hb
  | cons a rest ih =>
    rw [List.map_cons, List.nodup_cons] at hnodup
    rcases List.mem_cons.mp hb with rfl | hb'
    · simp [List.find?_cons]
    · have hne : ¬ (a.id == b.id) = true := by
        intro h
        exact hnodup.1 ((eq_of_beq h) ▸ List.mem_map_of_mem StrategyBlock.id hb')
      rw [List.find?_cons]
      simp only [Bool.not_eq_true] at hne
      rw [hne]
      exact ih hnodup.2 hb'

/-- Pointwise: one point of `weeklyStats` equals the specification-side
point for the same day. -/
theorem weekly_point_counts (goals : List Goal) (tasks : List Task) (day : Int) :
    ({ day := day
       completed :=
         goals.countP (fun g => (g.date == day || g.isDaily) && g.completed) +
         tasks.countP (fun t => (t.scheduledDate == day || t.isDaily) && t.completed)
       total :=
         goals.countP (fun g => g.date == day || g.isDaily) +
         tasks.countP (fun t => t.scheduledDate == day || t.isDaily) } : WeeklyStat) =
      weeklyPointClaim goals tasks day := by
  unfold weeklyPointClaim
  rw [WeeklyStat.mk.injEq]
  refine ⟨rfl, ?_, ?_⟩ <;>
    rw [List.countP_eq_length_filter, List.countP_eq_length_filter]
  · congr 1 <;>
    · refine congrArg List.length (List.filter_congr ?_)
      intro x _
      rw [Bool.eq_iff_iff]
      simp [countsTowardDay]
  · congr 1 <;>
    · refine congrArg List.length (List.filter_congr ?_)
      intro x _
      rw [Bool.eq_iff_iff]
      simp [countsTowardDay]

/-- `weeklyStats` in closed form: the map over `0..6` of the
specification-side point for day `today - 6 + i`. -/
theorem weeklyStats_eq_claim (goals : List Goal) (tasks : List Task) (today : Int) :
    weeklyStats goals tasks today =
      (List.range 7).map fun (i : ℕ) => weeklyPointClaim goals tasks (today - 6 + (i : Int)) := by
  unfold weeklyStats
  rw [List.map_map]
  apply List.map_congr_left
  intro i _
  simp only [Function.comp]
  rw [show today - ((6 : Int) - (i : Int)) = today - 6 + (i : Int) by ring]
  exact weekly_point_counts goals tasks (today - 6 + (i : Int))

/-! ## Claim theorems -/

/-- C1: the filtered goals are exactly the goals, in input order,
satisfying (date on the selected day or daily) and the category and
status selectors; the filtered tasks additionally pass when not completed
and dated strictly before the selected day. -/
theorem filter_subset_spec (goals : List Goal) (tasks : List Task)
    (filterDate : Int) (fc : CategoryFilter) (fs : StatusFilter) :
    currentGoals goals filterDate fc fs =
      goals.filter (fun g => decide (goalFilterClaim filterDate fc fs g)) ∧
    currentTasks tasks filterDate fc fs =
      tasks.filter (fun t => decide (taskFilterClaim filterDate fc fs t)) := by
  constructor
  · unfold currentGoals applyFilters
    apply List.filter_congr
    intro g _
    rw [Bool.eq_iff_iff]
    cases fc <;> cases fs <;>
      simp [goalFilterClaim, @eq_comm Category g.category] <;> tauto
  · unfold currentTasks applyFilters
    apply List.filter_congr
    intro t _
    rw [Bool.eq_iff_iff]
    cases fc <;> cases fs <;>
      simp [taskFilterClaim, @eq_comm Category (t.category.getD Category.outros)] <;> tauto

/-- C2: the weekly series has exactly 7 points, one per trailing day
ending today, oldest first (point `i` is for day `today - 6 + i`); each
point's total counts the items whose stored date falls on the day or that
are daily, its completed count those that are additionally completed; on
empty collections every point is zero. -/
theorem weekly_series_spec (goals : List Goal) (tasks : List Task) (today : Int) :
    (weeklyStats goals tasks today).length = 7 ∧
    weeklyStats goals tasks today =
      (List.range 7).map (fun (i : ℕ) => weeklyPointClaim goals tasks (today - 6 + (i : Int))) ∧
    weeklyStats [] [] today =
      (List.range 7).map
        (fun (i : ℕ) =>
          { day := today - 6 + (i : Int), completed := 0, total := 0 }) := by
  refine ⟨?_, weeklyStats_eq_claim goals tasks today, ?_⟩
  · rw [weeklyStats_eq_claim]
    rw [List.length_map, List.length_range]
  · rw [weeklyStats_eq_claim]
    apply List.map_congr_left
    intro i _
    rfl

/-- C3: the snapshot counters satisfy: `total` is the number of goals plus
tasks, `completed` the number of completed items, `pending` is
`total - completed`, and `rate` is the completion percentage rounded to
the nearest integer as a string, with `"0"` whenever `total` is zero. -/
theorem stats_counters_spec (goals : List Goal) (tasks : List Task) :
    (stats goals tasks).total = goals.length + tasks.length ∧
    (stats goals tasks).completed =
      (goals.filter fun g => g.completed).length +
      (tasks.filter fun t => t.completed).length ∧
    (stats goals tasks).pending = (stats goals tasks).total - (stats goals tasks).completed ∧
    ((stats goals tasks).total = 0 → (stats goals tasks).rate = "0") ∧
    ((stats goals tasks).total ≠ 0 →
      (stats goals tasks).rate =
        toString (ratePercent (stats goals tasks).completed (stats goals tasks).total).toNat) := by
  refine ⟨rfl, rfl, rfl, ?_, ?_⟩
  · intro h
    have h' : goals.length + tasks.length = 0 := h
    calc (stats goals tasks).rate
        = if goals.length + tasks.length = 0 then "0"
          else toString ((200 * (stats goals tasks).completed + (goals.length + tasks.length)) /
            (2 * (goals.length + tasks.length))) := rfl
      _ = "0" := if_pos h'
  · intro h
    have h' : goals.length + tasks.length ≠ 0 := h
    calc (stats goals tasks).rate
        = if goals.length + tasks.length = 0 then "0"
          else toString ((200 * (stats goals tasks).completed + (goals.length + tasks.length)) /
            (2 * (goals.length + tasks.length))) := rfl
      _ = toString ((200 * (stats goals tasks).completed + (goals.length + tasks.length)) /
            (2 * (goals.length + tasks.length))) := if_neg h'
      _ = toString (ratePercent (stats goals tasks).completed
            (goals.length + tasks.length)).toNat := by
          rw [rate_div_eq_round _ _ h']

/-- C3 witness: four items with two completed yield rate `"50"`; zero
items yield rate `"0"`. -/
theorem stats_counters_witness :
    (stats [sampleGoal, { sampleGoal with id := "g2", completed := true }]
        [sampleTask, { sampleTask with id := "t2", completed := true }]).rate =
      toString (ratePercent 2 4).toNat ∧
    (stats [] []).rate = "0" :=
  ⟨(stats_counters_spec [sampleGoal, { sampleGoal with id := "g2", completed := true }]
        [sampleTask, { sampleTask with id := "t2", completed := true }]).2.2.2.2 (by decide),
   (stats_counters_spec [] []).2.2.2.1 (by decide)⟩

/-- C4: `loadUserData` never throws; an absent document yields the empty
bundle, and in a present document every field that is missing or not an
array is replaced by the empty list while array fields pass through
unchanged. -/
theorem load_coercion_spec :
    loadUserData none = getEmptyData ∧
    ∀ d : RawDoc,
      ((∀ xs, d.goals = .arr xs → (loadUserData (some d)).goals = xs) ∧
        ((∀ xs, d.goals ≠ .arr xs) → (loadUserData (some d)).goals = [])) ∧
      ((∀ xs, d.tasks = .arr xs → (loadUserData (some d)).tasks = xs) ∧
        ((∀ xs, d.tasks ≠ .arr xs) → (loadUserData (some d)).tasks = [])) ∧
      ((∀ xs, d.notes = .arr xs → (loadUserData (some d)).notes = xs) ∧
        ((∀ xs, d.notes ≠ .arr xs) → (loadUserData (some d)).notes = [])) ∧
      ((∀ xs, d.projects = .arr xs → (loadUserData (some d)).projects = xs) ∧
        ((∀ xs, d.projects ≠ .arr xs) → (loadUserData (some d)).projects = [])) ∧
      ((∀ xs, d.blocks = .arr xs → (loadUserData (some d)).blocks = xs) ∧
        ((∀ xs, d.blocks ≠ .arr xs) → (loadUserData (some d)).blocks = [])) ∧
      ((∀ xs, d.edges = .arr xs → (loadUserData (some d)).edges = xs) ∧
        ((∀ xs, d.edges ≠ .arr xs) → (loadUserData (some d)).edges = [])) := by
  refine ⟨rfl, fun d => ?_⟩
  exact ⟨coerceField_spec d.goals, coerceField_spec d.tasks, coerceField_spec d.notes,
    coerceField_spec d.projects, coerceField_spec d.blocks, coerceField_spec d.edges⟩

/-- C4 witness: a document with a malformed `goals` field and an actual
`tasks` array loads with `goals = []` and the `tasks` array unchanged. -/
theorem load_coercion_witness :
    (loadUserData (some
        { goals := .malformed, tasks := .arr [sampleTask], notes := .missing,
          projects := .malformed, blocks := .missing, edges := .arr [] })).goals = [] ∧
    (loadUserData (some
        { goals := .malformed, tasks := .arr [sampleTask], notes := .missing,
          projects := .malformed, blocks := .missing, edges := .arr [] })).tasks =
      [sampleTask] :=
  ⟨((load_coercion_spec.2 _).1).2 (fun _ h => nomatch h),
   ((load_coercion_spec.2 _).2.1).1 [sampleTask] rfl⟩

/-- A fresh in-flight session, as after the load effect has started. -/
def loadingSession : SessionState :=
  startLoad { bundle := getEmptyData, isLoading := false, canSave := false, hasLoaded := false }

/-- C5 counterexample: settling the load with a failure does NOT leave the
session in the same state as settling it with "no document found"
(`loadUserData none`): the resulting states differ, and the debounced save
gate is closed after a failure but open after an absent document, so
subsequent mutations are not persisted the same way. -/
theorem load_failure_counterexample :
    settleLoad loadingSession .failure ≠
      settleLoad loadingSession (.success (loadUserData none)) ∧
    saveAllowed (settleLoad loadingSession .failure) = false ∧
    saveAllowed (settleLoad loadingSession (.success (loadUserData none))) = true := by
  refine ⟨?_, rfl, rfl⟩
  intro h
  have : (settleLoad loadingSession .failure).canSave =
      (settleLoad loadingSession (.success (loadUserData none))).canSave := by rw [h]
  simp [settleLoad, loadingSession, startLoad] at this

/-- C5 amended: a fetch that resolves with a malformed document is coerced
and then treated exactly like "no document found"; a fetch that throws
also falls back to the empty bundle and clears the loading indicator, but
unlike the absent-document case it leaves `canSave` false, so the
debounced save gate stays closed and subsequent mutations are not
persisted until a later successful load. -/
theorem load_failure_fallback (s : SessionState) :
    settleLoad s (.success (loadUserData (some
        { goals := .malformed, tasks := .malformed, notes := .malformed,
          projects := .malformed, blocks := .malformed, edges := .malformed }))) =
      settleLoad s (.success (loadUserData none)) ∧
    (settleLoad s .failure).bundle = getEmptyData ∧
    (settleLoad s .failure).isLoading = false ∧
    (settleLoad s .failure).hasLoaded = true ∧
    (settleLoad s (.success (loadUserData none))).bundle = getEmptyData ∧
    (settleLoad s (.success (loadUserData none))).isLoading = false ∧
    (settleLoad s (.success (loadUserData none))).hasLoaded = true ∧
    saveAllowed (settleLoad s .failure) = false ∧
    saveAllowed (settleLoad s (.success (loadUserData none))) = true :=
  ⟨rfl, rfl, rfl, rfl, rfl, rfl, rfl, rfl, rfl⟩

/-- C6: deleting block `b` removes exactly the blocks whose id is `b` and
exactly the edges whose source or target is `b`; everything else,
including edges of other projects, survives in input order. -/
theorem delete_block_spec (blocks : List StrategyBlock) (edges : List StrategyEdge)
    (blockId : String) (_hmem : blockId ∈ blocks.map StrategyBlock.id) :
    (∀ b : StrategyBlock,
      b ∈ (deleteBlock blocks edges blockId).1 ↔ b ∈ blocks ∧ b.id ≠ blockId) ∧
    (∀ e : StrategyEdge,
      e ∈ (deleteBlock blocks edges blockId).2 ↔
        e ∈ edges ∧ e.source ≠ blockId ∧ e.target ≠ blockId) ∧
    (deleteBlock blocks edges blockId).1.Sublist blocks ∧
    (deleteBlock blocks edges blockId).2.Sublist edges := by
  refine ⟨?_, ?_, List.filter_sublist blocks, List.filter_sublist edges⟩
  · intro b
    simp [deleteBlock, List.mem_filter]
  · intro e
    simp [deleteBlock, List.mem_filter]

/-- Strategy blocks used in concrete evaluations: two blocks of project
`p1`. -/
def blockOne : StrategyBlock :=
  { id := "b1", title := "Vendas", description := "d", type := .vendas,
    order := 1, projectId := "p1", position := some { x := 10, y := 20 } }

/-- Second test block. -/
def blockTwo : StrategyBlock :=
  { id := "b2", title := "Financeiro", description := "d2", type := .financeiro,
    order := 2, projectId := "p1", position := none }

/-- Test edge touching `b1`. -/
def edgeTouching : StrategyEdge :=
  { id := "e1", source := "b1", target := "b2", projectId := "p1" }

/-- Test edge of another project, touching neither `b1` nor `b2`. -/
def edgeOtherProject : StrategyEdge :=
  { id := "e2", source := "x1", target := "x2", projectId := "p2" }

/-- C6 witness: in a store containing `b1`, deleting `b1` keeps the
other project's edge and drops the edge touching `b1`. -/
theorem delete_block_witness :
    "b1" ∈ ([blockOne, blockTwo].map StrategyBlock.id) ∧
    (edgeOtherProject ∈
        (deleteBlock [blockOne, blockTwo] [edgeTouching, edgeOtherProject] "b1").2 ↔
      edgeOtherProject ∈ [edgeTouching, edgeOtherProject] ∧
        edgeOtherProject.source ≠ "b1" ∧ edgeOtherProject.target ≠ "b1") :=
  ⟨by decide,
   (delete_block_spec [blockOne, blockTwo] [edgeTouching, edgeOtherProject] "b1"
      (by decide)).2.1 edgeOtherProject⟩

/-- C7: duplicating a block `b` (with pairwise-distinct stored ids and a
fresh new id) prepends a clone whose id is the fresh id, whose title is
`b`'s title with the `" (Cópia)"` copy marker appended, and whose position
is `b`'s position offset by `(+30, +30)` when present; description, type,
order and project are unchanged, the rest of the block store is unchanged,
and the edge store is untouched. -/
theorem duplicate_block_spec (blocks : List StrategyBlock) (edges : List StrategyEdge)
    (b : StrategyBlock) (newId : String)
    (hnodup : (blocks.map StrategyBlock.id).Nodup) (hb : b ∈ blocks)
    (hfresh : newId ∉ blocks.map StrategyBlock.id) :
    ∃ nb : StrategyBlock,
      onDuplicateNode blocks edges b.id newId = (nb :: blocks, edges) ∧
      nb.id = newId ∧
      nb.id ∉ blocks.map StrategyBlock.id ∧
      nb.title = b.title ++ " (Cópia)" ∧
      nb.position = b.position.map (fun p => { x := p.x + 30, y := p.y + 30 }) ∧
      nb.description = b.description ∧
      nb.type = b.type ∧
      nb.order = b.order ∧
      nb.projectId = b.projectId := by
  refine ⟨{ b with
      id := newId
      title := b.title ++ " (Cópia)"
      position := b.position.map fun p => { x := p.x + 30, y := p.y + 30 } },
    ?_, rfl, hfresh, rfl, rfl, rfl, rfl, rfl, rfl⟩
  rw [onDuplicateNode, find?_id_eq_of_nodup blocks b hnodup hb]

/-- C7 witness: duplicating `b1` (position `(10, 20)`) in the two-block
store with fresh id `b9` prepends the clone and leaves edges alone. -/
theorem duplicate_block_witness :
    ∃ nb : StrategyBlock,
      onDuplicateNode [blockOne, blockTwo] [edgeTouching] blockOne.id "b9" =
        (nb :: [blockOne, blockTwo], [edgeTouching]) ∧
      nb.id = "b9" ∧
      nb.id ∉ [blockOne, blockTwo].map StrategyBlock.id ∧
      nb.title = blockOne.title ++ " (Cópia)" ∧
      nb.position = blockOne.position.map (fun p => { x := p.x + 30, y := p.y + 30 }) ∧
      nb.description = blockOne.description ∧
      nb.type = blockOne.type ∧
      nb.order = blockOne.order ∧
      nb.projectId = blockOne.projectId :=
  duplicate_block_spec [blockOne, blockTwo] [edgeTouching] blockOne "b9"
    (by decide) (by decide) (by decide)

/-- C8: instantiating the 4-stage funnel template (with distinct fresh
block ids) prepends exactly 4 blocks and 3 edges, all owned by the given
project, the prior stores surviving unchanged; the 3 edges connect the 4
new blocks in a single linear chain (first to second to third to fourth)
with distinct endpoints and no self-loop. -/
theorem template_funnel_spec (projectId : String) (bid1 bid2 bid3 bid4 eid1 eid2 eid3 : String)
    (blocks : List StrategyBlock) (edges : List StrategyEdge)
    (hids : [bid1, bid2, bid3, bid4].Nodup) :
    (addTemplateFunnel projectId bid1 bid2 bid3 bid4 eid1 eid2 eid3 blocks edges).1.length =
      blocks.length + 4 ∧
    (addTemplateFunnel projectId bid1 bid2 bid3 bid4 eid1 eid2 eid3 blocks edges).2.length =
      edges.length + 3 ∧
    (addTemplateFunnel projectId bid1 bid2 bid3 bid4 eid1 eid2 eid3 blocks edges).1.drop 4 =
      blocks ∧
    (addTemplateFunnel projectId bid1 bid2 bid3 bid4 eid1 eid2 eid3 blocks edges).2.drop 3 =
      edges ∧
    (∀ b ∈ (addTemplateFunnel projectId bid1 bid2 bid3 bid4 eid1 eid2 eid3 blocks edges).1.take 4,
      b.projectId = projectId) ∧
    (∀ e ∈ (addTemplateFunnel projectId bid1 bid2 bid3 bid4 eid1 eid2 eid3 blocks edges).2.take 3,
      e.projectId = projectId) ∧
    ((addTemplateFunnel projectId bid1 bid2 bid3 bid4 eid1 eid2 eid3 blocks edges).1.take 4).map
      StrategyBlock.id = [bid1, bid2, bid3, bid4] ∧
    ((addTemplateFunnel projectId bid1 bid2 bid3 bid4 eid1 eid2 eid3 blocks edges).2.take 3).map
      (fun e => (e.source, e.target)) = [(bid1, bid2), (bid2, bid3), (bid3, bid4)] ∧
    [bid1, bid2, bid3, bid4].Nodup ∧
    (∀ e ∈ (addTemplateFunnel projectId bid1 bid2 bid3 bid4 eid1 eid2 eid3 blocks edges).2.take 3,
      e.source ≠ e.target) := by
  have h12 : bid1 ≠ bid2 := by rintro rfl; simp [List.nodup_cons] at hids
  have h23 : bid2 ≠ bid3 := by rintro rfl; simp [List.nodup_cons] at hids
  have h34 : bid3 ≠ bid4 := by rintro rfl; simp [List.nodup_cons] at hids
  refine ⟨?_, ?_, rfl, rfl, ?_, ?_, rfl, rfl, hids, ?_⟩
  · simp [addTemplateFunnel]
  · simp [addTemplateFunnel]
  · intro b hb
    simp [addTemplateFunnel] at hb
    rcases hb with rfl | rfl | rfl | rfl <;> rfl
  · intro e he
    simp [addTemplateFunnel] at he
    rcases he with rfl | rfl | rfl <;> rfl
  · intro e he
    simp [addTemplateFunnel] at he
    rcases he with rfl | rfl | rfl
    · exact h12
    · exact h23
    · exact h34

/-- C8 witness: the template instantiated on empty stores with concrete
distinct ids. -/
theorem template_funnel_witness :
    (addTemplateFunnel "p1" "n1" "n2" "n3" "n4" "f1" "f2" "f3" [] []).1.length = 0 + 4 ∧
    (addTemplateFunnel "p1" "n1" "n2" "n3" "n4" "f1" "f2" "f3" [] []).2.length = 0 + 3 ∧
    ((addTemplateFunnel "p1" "n1" "n2" "n3" "n4" "f1" "f2" "f3" [] []).2.take 3).map
      (fun e => (e.source, e.target)) = [("n1", "n2"), ("n2", "n3"), ("n3", "n4")] :=
  by
    have h := template_funnel_spec "p1" "n1" "n2" "n3" "n4" "f1" "f2" "f3" [] [] (by decide)
    exact ⟨by simpa using h.1, by simpa using h.2.1, h.2.2.2.2.2.2.2.1⟩

/-- The session created for the allow-listed identity `pascoto`. -/
def pascotoUser : User :=
  { username := "pascoto", name := "PASCOTO", theme := .masculine }

/-- The session created for the allow-listed identity `yasmin`. -/
def yasminUser : User :=
  { username := "yasmin", name := "YASMIN", theme := .feminine }

/-- C9: logging in as `pascoto` yields a session granted the strategy
workspace; logging in as `yasmin` yields a session shown the
restricted-access notice on the strategy route; and any typed username
whose normalisation falls outside the allow-list is rejected with an
inline error message, creating no session. -/
theorem login_gate_spec :
    handleSubmit "pascoto" = .session pascotoUser ∧
    strategyRoute pascotoUser = .workspace ∧
    handleSubmit "yasmin" = .session yasminUser ∧
    strategyRoute yasminUser = .restrictedNotice ∧
    hasStrategyAccess yasminUser = false ∧
    ∀ input : String,
      normalizeUsername input ∉ ["pascoto", "pascot", "yasmin"] →
      ∃ msg, handleSubmit input = .rejected msg := by
  refine ⟨by decide, by decide, by decide, by decide, by decide, ?_⟩
  intro input h
  simp only [List.mem_cons, List.not_mem_nil, or_false, not_or] at h
  obtain ⟨h1, h2, h3⟩ := h
  rw [handleSubmit, submitNormalized]
  by_cases h0 : normalizeUsername input = ""
  · exact ⟨"Informe o acesso", by rw [if_pos h0]⟩
  · refine ⟨"Acesso inválido", ?_⟩
    rw [if_neg h0, if_neg (by tauto), if_neg h3]

/-- C9 witness: the typed username `intruso` normalises outside the
allow-list and is rejected. -/
theorem login_gate_witness :
    ∃ msg, handleSubmit "intruso" = .rejected msg :=
  login_gate_spec.2.2.2.2.2 "intruso" (by decide)

/-- C10: the login gate matches on the trimmed, lowercased username only
(inputs with the same normalisation are treated identically); any input
normalising to the undocumented alias `pascot` is mapped to the same
PASCOTO session as `pascoto`; in particular `" PASCOT "` logs in as
pascoto. -/
theorem login_alias_spec :
    (∀ s t : String, normalizeUsername s = normalizeUsername t →
      handleSubmit s = handleSubmit t) ∧
    (∀ s : String, normalizeUsername s = "pascot" → handleSubmit s = .session pascotoUser) ∧
    handleSubmit "pascot" = handleSubmit "pascoto" ∧
    handleSubmit " PASCOT " = .session pascotoUser := by
  refine ⟨?_, ?_, by decide, by decide⟩
  · intro s t h
    rw [handleSubmit, handleSubmit, h]
  · intro s h
    rw [handleSubmit, h]
    decide

/-- C10 witness: `" PasCot "` normalises to the alias and yields the
PASCOTO session. -/
theorem login_alias_witness :
    handleSubmit " PasCot " = .session pascotoUser :=
  login_alias_spec.2.1 " PasCot " (by decide)

end FocoTotal
